import Mathlib

/-!
Shallow embedding of the order-creation workflow of the danmaciel/api
commerce backend (Go, GORM over SQLite), covering the service layer
(`pedidoServiceImpl`, `produtoServiceImpl`), the request validation tags
of the DTOs, the repository lookup/persist behaviour visible to the
services, and the `PedidoProduto.BeforeSave` GORM hook.

Modelling conventions:
* Go `float64` currency values are modelled as exact rationals (`ℚ`);
  the spec (§4.2) flags native floating point as a known fidelity gap
  and the claims under verification are about the algebraic structure
  of the computation, not bit-level rounding.
* Go `uint` identifiers are `Nat`, Go `int` quantities are `Int`.
* The entity store is a `Store` of in-memory lists; `find?` mirrors a
  primary-key / unique-key lookup.  Soft-delete columns and timestamps
  are not modelled (no claim observes them).
* Fallible service calls return an `Outcome`: `ok`, `invalid` (a
  go-playground `validator.Struct` failure), `failMsg s` (an
  `errors.New s` business error), or `nilDeref` (a Go nil-pointer
  dereference at runtime, i.e. a panic).
* The SQLite driver is opened without the foreign-keys pragma
  (`config.InitDatabase`), so inserting an order whose customer id does
  not exist succeeds at the store level; the embedding reflects that.
-/

/-- Customer entity (`model.Cliente`). -/
structure Cliente where
  id : Nat
  nome : String
  email : String
  cpf : String
  telefone : String
deriving DecidableEq

/-- Product entity (`model.Produto`). -/
structure Produto where
  id : Nat
  nome : String
  descricao : String
  preco : ℚ
  estoque : Int
  sku : String
  categoria : String
  ativo : Bool
deriving DecidableEq

/-- Order line entity (`model.PedidoProduto`, the order/product junction row). -/
structure PedidoProduto where
  id : Nat
  pedidoID : Nat
  produtoID : Nat
  quantidade : Int
  precoUnitario : ℚ
  subtotal : ℚ
deriving DecidableEq

/-- Order entity (`model.Pedido`); `itens` are owned order lines. -/
structure Pedido where
  id : Nat
  clienteID : Nat
  itens : List PedidoProduto
  valorTotal : ℚ
  status : String
deriving DecidableEq

/-- The entity store: the three relational tables the workflow touches. -/
structure Store where
  clientes : List Cliente
  produtos : List Produto
  pedidos : List Pedido
deriving DecidableEq

/-- Outcome of a service call.  `invalid` is a `validator.Struct` error,
`failMsg` an `errors.New` business error, `nilDeref` a runtime nil-pointer
dereference (panic). -/
inductive Outcome (α : Type) where
  | ok (val : α)
  | invalid
  | failMsg (msg : String)
  | nilDeref
deriving DecidableEq

/-- Customer lookup (`clienteRepositorySQLite.FindByID`).  The source maps
`gorm.ErrRecordNotFound` to `(nil, nil)` — a missing customer produces NO
error, only a nil pointer.  Other errors are database failures, outside
this embedding, so the error component is always `none`. -/
def clienteFindByID (st : Store) (id : Nat) : Option Cliente × Option String :=
  (st.clientes.find? (fun c => c.id == id), none)

/-- Product lookup (`produtoRepositorySQLite.FindByID`); `none` models the
`errors.New "produto not found"` result. -/
def produtoFindByID (st : Store) (id : Nat) : Option Produto :=
  st.produtos.find? (fun p => p.id == id)

/-- Product lookup by SKU (`produtoRepositorySQLite.FindBySKU`); a missing
SKU is `none` with no error, as in the source. -/
def produtoFindBySKU (st : Store) (sku : String) : Option Produto :=
  st.produtos.find? (fun p => p.sku == sku)

/-- Order lookup (`pedidoRepositorySQLite.FindByID`); `none` models the
`errors.New "pedido not found"` result. -/
def pedidoFindByID (st : Store) (id : Nat) : Option Pedido :=
  st.pedidos.find? (fun p => p.id == id)

/-- Go's `string(rune(id))` for a `uint` id: truncate to a signed 32-bit
rune, then encode; any value that is not a valid Unicode scalar (negative,
a surrogate in [0xD800, 0xDFFF], or above 0x10FFFF) encodes as the
replacement character U+FFFD. -/
def goRuneString (id : Nat) : String :=
  let m : Nat := id % 4294967296
  let r : Int := if m < 2147483648 then (m : Int) else (m : Int) - 4294967296
  if 0 ≤ r ∧ r ≤ 1114111 ∧ ¬(55296 ≤ r ∧ r ≤ 57343) then
    String.mk [Char.ofNat r.toNat]
  else
    String.mk [Char.ofNat 65533]

/-- Create-order line DTO (`dto.CreateItemPedidoRequest`). -/
structure CreateItemPedidoRequest where
  produtoID : Nat
  quantidade : Int
deriving DecidableEq

/-- Create-order DTO (`dto.CreatePedidoRequest`). -/
structure CreatePedidoRequest where
  clienteID : Nat
  itens : List CreateItemPedidoRequest
  status : String
deriving DecidableEq

/-- Status-update DTO (`dto.UpdatePedidoRequest`). -/
structure UpdatePedidoRequest where
  status : String
deriving DecidableEq

/-- The closed status vocabulary of the `oneof` validator tag. -/
def validStatusValue (s : String) : Bool :=
  s == "pendente" || s == "pago" || s == "enviado" || s == "entregue" || s == "cancelado"

/-- Validator tags of `CreateItemPedidoRequest`: `produto_id` required
(non-zero), `quantidade` required and `gt=0`. -/
def validCreateItem (it : CreateItemPedidoRequest) : Bool :=
  it.produtoID != 0 && decide (0 < it.quantidade)

/-- Validator tags of `CreatePedidoRequest`: `cliente_id` required,
`itens` required with `min=1` and `dive`, `status` empty or in the
closed vocabulary. -/
def validCreatePedido (req : CreatePedidoRequest) : Bool :=
  req.clienteID != 0 && decide (1 ≤ req.itens.length)
    && req.itens.all validCreateItem
    && (req.status == "" || validStatusValue req.status)

/-- Validator tags of `UpdatePedidoRequest`: `status` required and in the
closed vocabulary. -/
def validUpdatePedido (req : UpdatePedidoRequest) : Bool :=
  req.status != "" && validStatusValue req.status

/-- The per-line loop of `pedidoServiceImpl.Create` (lines 47–75): look the
product up, check stock, check the active flag — in that source order —
then snapshot the price, build the line and accumulate the total. -/
def buildItens (st : Store) : List CreateItemPedidoRequest → Except String (List PedidoProduto × ℚ)
  | [] => Except.ok ([], 0)
  | itemReq :: rest =>
    match produtoFindByID st itemReq.produtoID with
    | none => Except.error ("produto " ++ goRuneString itemReq.produtoID ++ " não encontrado")
    | some produto =>
      if produto.estoque < itemReq.quantidade then
        Except.error ("estoque insuficiente para produto: " ++ produto.nome)
      else if !produto.ativo then
        Except.error ("produto inativo: " ++ produto.nome)
      else
        match buildItens st rest with
        | Except.error e => Except.error e
        | Except.ok (itens, total) =>
          Except.ok
            ({ id := 0, pedidoID := 0, produtoID := itemReq.produtoID,
               quantidade := itemReq.quantidade, precoUnitario := produto.preco,
               subtotal := (itemReq.quantidade : ℚ) * produto.preco } :: itens,
             (itemReq.quantidade : ℚ) * produto.preco + total)

/-- GORM `BeforeSave` hook of `PedidoProduto`: recompute the subtotal from
the stored quantity and snapshotted unit price on every persist. -/
def beforeSavePedidoProduto (pp : PedidoProduto) : PedidoProduto :=
  { pp with subtotal := (pp.quantidade : ℚ) * pp.precoUnitario }

/-- Order persist (`pedidoRepositorySQLite.Create`): assign a fresh primary
key, cascade-create the lines (each line gets the order's key and runs its
`BeforeSave` hook), append the row.  Returns the new store and the key. -/
def pedidoRepoCreate (st : Store) (pedido : Pedido) : Store × Nat :=
  let pid := st.pedidos.length + 1
  let itens := pedido.itens.map (fun pp => beforeSavePedidoProduto { pp with pedidoID := pid })
  let stored : Pedido := { pedido with id := pid, itens := itens }
  ({ st with pedidos := st.pedidos ++ [stored] }, pid)

/-- Order update (`pedidoRepositorySQLite.Update` via GORM `Save`):
replace the row with the matching primary key. -/
def pedidoRepoUpdate (st : Store) (pedido : Pedido) : Store :=
  { st with pedidos := st.pedidos.map (fun p => if p.id == pedido.id then pedido else p) }

/-- Order line of the response DTO (`dto.ItemPedidoResponse`), restricted
to the fields the verified claims observe (nested product projection and
timestamps are outside the model). -/
structure ItemPedidoResponse where
  produtoID : Nat
  quantidade : Int
  precoUnitario : ℚ
  subtotal : ℚ
deriving DecidableEq

/-- Order response DTO (`dto.PedidoResponse`), restricted to the fields
the verified claims observe. -/
structure PedidoResponse where
  id : Nat
  clienteID : Nat
  itens : List ItemPedidoResponse
  valorTotal : ℚ
  status : String
deriving DecidableEq

/-- Response projection (`pedidoServiceImpl.toResponse`) on the modelled
fields. -/
def pedidoToResponse (pedido : Pedido) : PedidoResponse :=
  { id := pedido.id, clienteID := pedido.clienteID,
    itens := pedido.itens.map (fun item =>
      { produtoID := item.produtoID, quantidade := item.quantidade,
        precoUnitario := item.precoUnitario, subtotal := item.subtotal }),
    valorTotal := pedido.valorTotal, status := pedido.status }

/-- The create-order workflow (`pedidoServiceImpl.Create`): validate the
request shape, look the customer up (the repository never signals a
missing customer as an error, so the `err != nil` branch is dead for the
business case), build and price the lines, default the status, persist
with cascade, re-fetch the aggregate, then dereference the customer
pointer — which is nil when the customer did not exist. -/
def pedidoCreate (st : Store) (req : CreatePedidoRequest) : Store × Outcome PedidoResponse :=
  if !validCreatePedido req then (st, Outcome.invalid)
  else
    match clienteFindByID st req.clienteID with
    | (_, some _) => (st, Outcome.failMsg "cliente não encontrado")
    | (clienteOpt, none) =>
      match buildItens st req.itens with
      | Except.error e => (st, Outcome.failMsg e)
      | Except.ok (itens, valorTotal) =>
        let status := if req.status == "" then "pendente" else req.status
        let pedido : Pedido :=
          { id := 0, clienteID := req.clienteID, itens := itens,
            valorTotal := valorTotal, status := status }
        let stored := pedidoRepoCreate st pedido
        match pedidoFindByID stored.1 stored.2 with
        | none => (stored.1, Outcome.failMsg "pedido not found")
        | some pedidoCompleto =>
          match clienteOpt with
          | none => (stored.1, Outcome.nilDeref)
          | some _ => (stored.1, Outcome.ok (pedidoToResponse pedidoCompleto))

/-- The status-update workflow (`pedidoServiceImpl.UpdateStatus`):
validate the request first, then look the order up, then save the new
status. -/
def pedidoUpdateStatus (st : Store) (id : Nat) (req : UpdatePedidoRequest) : Store × Outcome PedidoResponse :=
  if !validUpdatePedido req then (st, Outcome.invalid)
  else
    match pedidoFindByID st id with
    | none => (st, Outcome.failMsg "pedido not found")
    | some pedido =>
      let pedido2 : Pedido := { pedido with status := req.status }
      (pedidoRepoUpdate st pedido2, Outcome.ok (pedidoToResponse pedido2))

/-- Create-product DTO (`dto.CreateProdutoRequest`); `ativo` is the
tri-state pointer-to-bool. -/
structure CreateProdutoRequest where
  nome : String
  descricao : String
  preco : ℚ
  estoque : Int
  sku : String
  categoria : String
  ativo : Option Bool
deriving DecidableEq

/-- Update-product DTO (`dto.UpdateProdutoRequest`). -/
structure UpdateProdutoRequest where
  nome : String
  descricao : String
  preco : ℚ
  estoque : Int
  sku : String
  categoria : String
  ativo : Option Bool
deriving DecidableEq

/-- Validator tags of `CreateProdutoRequest`: `nome` required with
`min=3,max=200`, `descricao` `max=1000`, `preco` required and `gt=0`,
`estoque` `gte=0`, `sku` required with `min=3,max=50`, `categoria`
`max=100`. -/
def validCreateProduto (req : CreateProdutoRequest) : Bool :=
  decide (3 ≤ req.nome.length) && decide (req.nome.length ≤ 200)
    && decide (req.descricao.length ≤ 1000)
    && decide (0 < req.preco)
    && decide (0 ≤ req.estoque)
    && decide (3 ≤ req.sku.length) && decide (req.sku.length ≤ 50)
    && decide (req.categoria.length ≤ 100)

/-- Validator tags of `UpdateProdutoRequest`: same bounds, each string
field `omitempty`, `preco` `omitempty,gt=0`, `estoque` `gte=0`. -/
def validUpdateProduto (req : UpdateProdutoRequest) : Bool :=
  (req.nome == "" || (decide (3 ≤ req.nome.length) && decide (req.nome.length ≤ 200)))
    && decide (req.descricao.length ≤ 1000)
    && (req.preco == 0 || decide (0 < req.preco))
    && decide (0 ≤ req.estoque)
    && (req.sku == "" || (decide (3 ≤ req.sku.length) && decide (req.sku.length ≤ 50)))
    && decide (req.categoria.length ≤ 100)

/-- Product persist (`produtoRepositorySQLite.Create`): assign a fresh
primary key and append the row. -/
def produtoRepoCreate (st : Store) (produto : Produto) : Store × Nat :=
  let pid := st.produtos.length + 1
  ({ st with produtos := st.produtos ++ [{ produto with id := pid }] }, pid)

/-- Product update (`produtoRepositorySQLite.Update` via GORM `Save`):
replace the row with the matching primary key. -/
def produtoRepoUpdate (st : Store) (produto : Produto) : Store :=
  { st with produtos := st.produtos.map (fun p => if p.id == produto.id then produto else p) }

/-- The create-product workflow (`produtoServiceImpl.Create`): validate,
reject a duplicate SKU, default the tri-state active flag to true when
the pointer is nil, persist.  The response mirrors the stored product on
the modelled fields, so the stored `Produto` is returned. -/
def produtoCreate (st : Store) (req : CreateProdutoRequest) : Store × Outcome Produto :=
  if !validCreateProduto req then (st, Outcome.invalid)
  else
    match produtoFindBySKU st req.sku with
    | some _ => (st, Outcome.failMsg "SKU já cadastrado")
    | none =>
      let ativo := match req.ativo with
        | none => true
        | some b => b
      let produto : Produto :=
        { id := 0, nome := req.nome, descricao := req.descricao,
          preco := req.preco, estoque := req.estoque, sku := req.sku,
          categoria := req.categoria, ativo := ativo }
      let created := produtoRepoCreate st produto
      (created.1, Outcome.ok { produto with id := created.2 })

/-- The update-product workflow (`produtoServiceImpl.Update`): validate,
look the product up, overwrite each field only when the request carries a
non-zero value (for `ativo`, a non-nil pointer), reject a SKU already
used by another product, save. -/
def produtoUpdate (st : Store) (id : Nat) (req : UpdateProdutoRequest) : Store × Outcome Produto :=
  if !validUpdateProduto req then (st, Outcome.invalid)
  else
    match produtoFindByID st id with
    | none => (st, Outcome.failMsg "produto not found")
    | some produto0 =>
      let p1 := if req.nome != "" then { produto0 with nome := req.nome } else produto0
      let p2 := if req.descricao != "" then { p1 with descricao := req.descricao } else p1
      let p3 := if 0 < req.preco then { p2 with preco := req.preco } else p2
      let p4 := if 0 ≤ req.estoque then { p3 with estoque := req.estoque } else p3
      let skuStep : Option Produto :=
        if req.sku != "" then
          match produtoFindBySKU st req.sku with
          | some existente => if existente.id != id then none else some { p4 with sku := req.sku }
          | none => some { p4 with sku := req.sku }
        else some p4
      match skuStep with
      | none => (st, Outcome.failMsg "SKU já cadastrado em outro produto")
      | some p5 =>
        let p6 := if req.categoria != "" then { p5 with categoria := req.categoria } else p5
        let p7 := match req.ativo with
          | some b => { p6 with ativo := b }
          | none => p6
        (produtoRepoUpdate st p7, Outcome.ok p7)

/-- A line request "passes validation" in the sense of §4.1: its product
resolves, has enough stock, and is active. -/
def linePasses (st : Store) (it : CreateItemPedidoRequest) : Prop :=
  ∃ p, produtoFindByID st it.produtoID = some p
    ∧ ¬(p.estoque < it.quantidade) ∧ p.ativo = true

/-- Customer fixture for concrete runs. -/
def clienteJoao : Cliente :=
  { id := 1, nome := "João Silva", email := "joao@example.com", cpf := "12345678901",
    telefone := "" }

/-- Product fixture matching the worked example of spec §8. -/
def produtoNotebook : Produto :=
  { id := 1, nome := "Notebook", descricao := "", preco := 2999.99, estoque := 10,
    sku := "NB-001", categoria := "", ativo := true }

/-- Second product fixture of the spec §8 example. -/
def produtoMouse : Produto :=
  { id := 2, nome := "Mouse", descricao := "", preco := 99.99, estoque := 10,
    sku := "MS-001", categoria := "", ativo := true }

/-- Product fixture with stock 5, for the insufficient-stock example. -/
def produtoTeclado : Produto :=
  { id := 3, nome := "Teclado", descricao := "", preco := 50, estoque := 5,
    sku := "TC-001", categoria := "", ativo := true }

/-- Inactive product with empty stock. -/
def produtoGadget : Produto :=
  { id := 4, nome := "Gadget", descricao := "", preco := 3, estoque := 0,
    sku := "GD-001", categoria := "", ativo := false }

/-- Inactive product with plenty of stock. -/
def produtoGadgetEstocado : Produto :=
  { id := 5, nome := "GadgetPlus", descricao := "", preco := 3, estoque := 9,
    sku := "GP-001", categoria := "", ativo := false }

/-- Store with one customer and the two §8 products. -/
def lojaBase : Store :=
  { clientes := [clienteJoao], produtos := [produtoNotebook, produtoMouse], pedidos := [] }

/-- Store with products but no customer at all. -/
def lojaSemCliente : Store :=
  { clientes := [], produtos := [produtoNotebook, produtoMouse], pedidos := [] }

/-- Store holding the stock-5 product. -/
def lojaTeclado : Store :=
  { clientes := [clienteJoao], produtos := [produtoTeclado], pedidos := [] }

/-- Store holding the two inactive products. -/
def lojaGadget : Store :=
  { clientes := [clienteJoao], produtos := [produtoGadget, produtoGadgetEstocado], pedidos := [] }

/-- Fully empty store. -/
def lojaVazia : Store := { clientes := [], produtos := [], pedidos := [] }

/-- Store with the customer but no products, and no decimal prices. -/
def lojaSoCliente : Store :=
  { clientes := [clienteJoao], produtos := [], pedidos := [] }

/-- The §8 request: two notebooks and one mouse. -/
def reqDoisItens : CreatePedidoRequest :=
  { clienteID := 1,
    itens := [{ produtoID := 1, quantidade := 2 }, { produtoID := 2, quantidade := 1 }],
    status := "" }

/-- Valid-shaped request naming a customer id that resolves to nothing. -/
def reqClienteFantasma : CreatePedidoRequest :=
  { clienteID := 7, itens := [{ produtoID := 1, quantidade := 1 }], status := "" }

/-- Request for quantity 10 of the stock-5 product. -/
def reqDezTeclados : CreatePedidoRequest :=
  { clienteID := 1, itens := [{ produtoID := 3, quantidade := 10 }], status := "" }

/-- Request for one unit of the empty-stock inactive product. -/
def reqUmGadget : CreatePedidoRequest :=
  { clienteID := 1, itens := [{ produtoID := 4, quantidade := 1 }], status := "" }

/-- Request for one unit of the well-stocked inactive product. -/
def reqUmGadgetEstocado : CreatePedidoRequest :=
  { clienteID := 1, itens := [{ produtoID := 5, quantidade := 1 }], status := "" }

/-- Requests naming two DISTINCT missing product ids that are both
surrogate code points, so `string(rune(id))` renders both as U+FFFD. -/
def reqRuneA : CreatePedidoRequest :=
  { clienteID := 1, itens := [{ produtoID := 55296, quantidade := 1 }], status := "" }

/-- Companion of `reqRuneA` with the other surrogate id. -/
def reqRuneB : CreatePedidoRequest :=
  { clienteID := 1, itens := [{ produtoID := 56320, quantidade := 1 }], status := "" }

/-- The order produced by running `reqDoisItens` against `lojaBase`. -/
def pedidoCriado : Pedido :=
  { id := 1, clienteID := 1,
    itens := [
      { id := 0, pedidoID := 1, produtoID := 1, quantidade := 2,
        precoUnitario := 2999.99, subtotal := 5999.98 },
      { id := 0, pedidoID := 1, produtoID := 2, quantidade := 1,
        precoUnitario := 99.99, subtotal := 99.99 }],
    valorTotal := 6099.97, status := "pendente" }

/-- `lojaBase` after the successful creation of `pedidoCriado`. -/
def lojaAposPedido : Store := { lojaBase with pedidos := [pedidoCriado] }

/-- A delivered order, for the any-to-any status-transition runs. -/
def pedidoEntregue : Pedido :=
  { id := 1, clienteID := 1, itens := [], valorTotal := 0, status := "entregue" }

/-- Store holding the delivered order. -/
def lojaPedidoEntregue : Store :=
  { clientes := [clienteJoao], produtos := [], pedidos := [pedidoEntregue] }

/-- Create-product request carrying an explicit `ativo = false`. -/
def reqMouseFalso : CreateProdutoRequest :=
  { nome := "Mouse", descricao := "", preco := 5, estoque := 0, sku := "MS-001",
    categoria := "", ativo := some false }

/-- The product stored for `reqMouseFalso` on the empty store. -/
def produtoMouseInativo : Produto :=
  { id := 1, nome := "Mouse", descricao := "", preco := 5, estoque := 0, sku := "MS-001",
    categoria := "", ativo := false }

/-- `lojaVazia` after creating `produtoMouseInativo`. -/
def lojaMouse : Store :=
  { clientes := [], produtos := [produtoMouseInativo], pedidos := [] }

/-- Successful line building: the accumulated total is the sum of the
built lines' quantity-times-snapshot-price products, one line is built per
request line, and every built line snapshots the price of the product the
store held at creation time. -/
theorem buildItens_ok_spec (st : Store) (items : List CreateItemPedidoRequest) :
    ∀ (itens : List PedidoProduto) (total : ℚ),
    buildItens st items = Except.ok (itens, total) →
    total = (itens.map (fun it => (it.quantidade : ℚ) * it.precoUnitario)).sum
    ∧ itens.length = items.length
    ∧ ∀ it ∈ itens, it.subtotal = (it.quantidade : ℚ) * it.precoUnitario
        ∧ ∃ p, produtoFindByID st it.produtoID = some p ∧ it.precoUnitario = p.preco := by
  induction items with
  | nil =>
    intro itens total h
    simp only [buildItens, Except.ok.injEq, Prod.mk.injEq] at h
    obtain ⟨h1, h2⟩ := h
    subst h1
    subst h2
    simp
  | cons itemReq rest ih =>
    intro itens total h
    simp only [buildItens] at h
    split at h
    · exact absurd h (by simp)
    rename_i produto hp
    split at h
    · exact absurd h (by simp)
    rename_i hstock
    split at h
    · exact absurd h (by simp)
    rename_i hativo
    split at h
    · exact absurd h (by simp)
    rename_i itens0 total0 hb
    simp only [Except.ok.injEq, Prod.mk.injEq] at h
    obtain ⟨h1, h2⟩ := h
    subst h1
    subst h2
    obtain ⟨ht, hlen, hall⟩ := ih itens0 total0 hb
    refine ⟨by simp [ht], by simp [hlen], ?_⟩
    intro it hit
    rcases List.mem_cons.mp hit with hcase | hcase
    · subst hcase
      exact ⟨rfl, produto, hp, rfl⟩
    · exact hall it hcase

/-- A head line whose product exists with insufficient stock makes the
line loop fail with the insufficient-stock message, whatever the
product's active flag. -/
theorem buildItens_head_estoque (st : Store) (bad : CreateItemPedidoRequest)
    (rest : List CreateItemPedidoRequest) (produto : Produto)
    (hfind : produtoFindByID st bad.produtoID = some produto)
    (hstock : produto.estoque < bad.quantidade) :
    buildItens st (bad :: rest)
      = Except.error ("estoque insuficiente para produto: " ++ produto.nome) := by
  simp only [buildItens, hfind, if_pos hstock]

/-- A head line whose product exists, has enough stock, and is inactive
makes the line loop fail with the inactive-product message. -/
theorem buildItens_head_inativo (st : Store) (bad : CreateItemPedidoRequest)
    (rest : List CreateItemPedidoRequest) (produto : Produto)
    (hfind : produtoFindByID st bad.produtoID = some produto)
    (hstock : ¬(produto.estoque < bad.quantidade))
    (hativo : produto.ativo = false) :
    buildItens st (bad :: rest)
      = Except.error ("produto inativo: " ++ produto.nome) := by
  simp only [buildItens, hfind, if_neg hstock, hativo, Bool.not_false, if_pos]

/-- Lines that pass validation are transparent to a downstream failure:
the first failing line determines the error. -/
theorem buildItens_prefix_error (st : Store) (pre l : List CreateItemPedidoRequest) (e : String)
    (hpre : ∀ it ∈ pre, linePasses st it)
    (hl : buildItens st l = Except.error e) :
    buildItens st (pre ++ l) = Except.error e := by
  induction pre with
  | nil => simpa using hl
  | cons it pre ih =>
    obtain ⟨p, hp, hstock, hativo⟩ := hpre it (by simp)
    have hrest := ih (fun x hx => hpre x (by simp [hx]))
    simp only [List.cons_append, buildItens, hp, if_neg hstock, hativo, Bool.not_true,
      Bool.false_eq_true, if_false, List.append_eq, hrest]

/-- When the request shape validates and the line loop fails, `Create`
returns that failure and leaves the store untouched. -/
theorem pedidoCreate_error_of_buildItens (st : Store) (req : CreatePedidoRequest) (e : String)
    (hv : validCreatePedido req = true)
    (hb : buildItens st req.itens = Except.error e) :
    pedidoCreate st req = (st, Outcome.failMsg e) := by
  simp only [pedidoCreate, hv, Bool.not_true, Bool.false_eq_true, if_false,
    clienteFindByID, hb]

/-- Inversion of a successful `Create`: the request validated, every line
was built, and the store gained exactly the assembled order (fresh key,
cascade-created lines run through the `BeforeSave` hook, defaulted
status). -/
theorem pedidoCreate_ok_inv (st st' : Store) (req : CreatePedidoRequest) (resp : PedidoResponse)
    (h : pedidoCreate st req = (st', Outcome.ok resp)) :
    validCreatePedido req = true
    ∧ ∃ itens total, buildItens st req.itens = Except.ok (itens, total)
      ∧ st' = { st with pedidos := st.pedidos ++ [{
          id := st.pedidos.length + 1,
          clienteID := req.clienteID,
          itens := itens.map (fun pp => beforeSavePedidoProduto { pp with pedidoID := st.pedidos.length + 1 }),
          valorTotal := total,
          status := if req.status == "" then "pendente" else req.status }] } := by
  by_cases hv : validCreatePedido req = true
  · refine ⟨hv, ?_⟩
    simp only [pedidoCreate, hv, Bool.not_true, Bool.false_eq_true, if_false,
      clienteFindByID, pedidoRepoCreate] at h
    cases hb : buildItens st req.itens with
    | error e => rw [hb] at h; exact absurd h (by simp)
    | ok pair =>
      obtain ⟨itens, total⟩ := pair
      rw [hb] at h
      refine ⟨itens, total, rfl, ?_⟩
      simp only at h
      split at h
      · exact absurd h (by simp)
      · split at h
        · exact absurd h (by simp)
        · simp only [Prod.mk.injEq, Outcome.ok.injEq] at h
          exact h.1.symm
  · simp only [pedidoCreate, Bool.not_eq_true] at hv
    simp only [pedidoCreate, hv, Bool.not_false, if_true] at h
    exact absurd h (by simp)

/-- C2: for every create-order request that succeeds, the persisted
order's total value equals the sum over all its lines of the snapshotted
unit price times the requested quantity, and each line's subtotal equals
that same product for its own line; the snapshotted unit price is the
price the referenced product had in the store at creation time. -/
theorem pedidoCreate_valorTotal (st : Store) (req : CreatePedidoRequest)
    (resp : PedidoResponse)
    (h : (pedidoCreate st req).2 = Outcome.ok resp) :
    ∃ pedido, ((pedidoCreate st req).1).pedidos = st.pedidos ++ [pedido]
      ∧ pedido.valorTotal
          = (pedido.itens.map (fun item => (item.quantidade : ℚ) * item.precoUnitario)).sum
      ∧ ∀ item ∈ pedido.itens,
          item.subtotal = (item.quantidade : ℚ) * item.precoUnitario
          ∧ ∃ produto, produtoFindByID st item.produtoID = some produto
              ∧ item.precoUnitario = produto.preco := by
  have hfull : pedidoCreate st req = ((pedidoCreate st req).1, Outcome.ok resp) := by
    rw [← h]
  obtain ⟨hv, itens, total, hb, hst⟩ :=
    pedidoCreate_ok_inv st ((pedidoCreate st req).1) req resp hfull
  obtain ⟨ht, hlen, hall⟩ := buildItens_ok_spec st req.itens itens total hb
  rw [hst]
  refine ⟨_, rfl, ?_, ?_⟩
  · simp only [List.map_map]
    exact ht
  · intro item hitem
    obtain ⟨pp, hppmem, hppeq⟩ := List.mem_map.mp hitem
    subst hppeq
    obtain ⟨hsub, produto, hfindp, hpreco⟩ := hall pp hppmem
    exact ⟨rfl, produto, hfindp, hpreco⟩

/-- C2 witness: the spec §8 example — two notebooks at 2999.99 and one
mouse at 99.99 — persists an order whose total is the sum of its lines'
quantity-times-snapshot-price products. -/
theorem pedidoCreate_valorTotal_fact :
    ∃ pedido, ((pedidoCreate lojaBase reqDoisItens).1).pedidos
        = lojaBase.pedidos ++ [pedido]
      ∧ pedido.valorTotal
          = (pedido.itens.map (fun item => (item.quantidade : ℚ) * item.precoUnitario)).sum
      ∧ ∀ item ∈ pedido.itens,
          item.subtotal = (item.quantidade : ℚ) * item.precoUnitario
          ∧ ∃ produto, produtoFindByID lojaBase item.produtoID = some produto
              ∧ item.precoUnitario = produto.preco :=
  pedidoCreate_valorTotal lojaBase reqDoisItens _ rfl

/-- C7: a create-order request with an empty item list is rejected by the
shape validator (`min=1`) with a validation error and the store is
untouched; conversely, any successfully created order has at least one
line. -/
theorem pedidoCreate_sem_itens :
    (∀ (st : Store) (req : CreatePedidoRequest), req.itens = [] →
        pedidoCreate st req = (st, Outcome.invalid))
    ∧ ∀ (st : Store) (req : CreatePedidoRequest) (resp : PedidoResponse),
        (pedidoCreate st req).2 = Outcome.ok resp →
        ∃ pedido, ((pedidoCreate st req).1).pedidos = st.pedidos ++ [pedido]
          ∧ pedido.itens ≠ [] := by
  constructor
  · intro st req hempty
    have hv : validCreatePedido req = false := by
      simp [validCreatePedido, hempty]
    simp [pedidoCreate, hv]
  · intro st req resp h
    have hfull : pedidoCreate st req = ((pedidoCreate st req).1, Outcome.ok resp) := by
      rw [← h]
    obtain ⟨hv, itens, total, hb, hst⟩ :=
      pedidoCreate_ok_inv st ((pedidoCreate st req).1) req resp hfull
    obtain ⟨ht, hlen, hall⟩ := buildItens_ok_spec st req.itens itens total hb
    have hpos : 1 ≤ req.itens.length := by
      simp only [validCreatePedido, Bool.and_eq_true, decide_eq_true_eq] at hv
      exact hv.1.1.2
    rw [hst]
    refine ⟨_, rfl, ?_⟩
    intro hnil
    have hitensnil : itens = [] := by
      cases itens with
      | nil => rfl
      | cons a l => simp at hnil
    rw [hitensnil] at hlen
    simp at hlen
    omega

/-- C7 witness: an empty-cart request on the populated base store comes
back as a validation failure with the store unchanged. -/
theorem pedidoCreate_sem_itens_fact :
    pedidoCreate lojaBase { clienteID := 1, itens := [], status := "" }
      = (lojaBase, Outcome.invalid) :=
  pedidoCreate_sem_itens.1 lojaBase { clienteID := 1, itens := [], status := "" } rfl

/-- C3: when the request shape validates, every line before some line
passes validation, and that line's product resolves but has stock
strictly below the requested quantity, `Create` fails with the
insufficient-stock error naming that product and returns the store
untouched — no order, no lines, and every product row (hence every stock
level) exactly as before. -/
theorem pedidoCreate_estoque_insuficiente (st : Store) (req : CreatePedidoRequest)
    (pre rest : List CreateItemPedidoRequest) (bad : CreateItemPedidoRequest)
    (produto : Produto)
    (hv : validCreatePedido req = true)
    (hsplit : req.itens = pre ++ bad :: rest)
    (hpre : ∀ it ∈ pre, linePasses st it)
    (hfind : produtoFindByID st bad.produtoID = some produto)
    (hstock : produto.estoque < bad.quantidade) :
    pedidoCreate st req
      = (st, Outcome.failMsg ("estoque insuficiente para produto: " ++ produto.nome)) := by
  have hb : buildItens st req.itens
      = Except.error ("estoque insuficiente para produto: " ++ produto.nome) := by
    rw [hsplit]
    exact buildItens_prefix_error st pre (bad :: rest) _ hpre
      (buildItens_head_estoque st bad rest produto hfind hstock)
  exact pedidoCreate_error_of_buildItens st req _ hv hb

/-- C3 witness: the spec §8 scenario — stock 5, requested quantity 10 —
fails with the insufficient-stock error and leaves the store unchanged. -/
theorem pedidoCreate_estoque_insuficiente_fact :
    pedidoCreate lojaTeclado reqDezTeclados
      = (lojaTeclado,
         Outcome.failMsg ("estoque insuficiente para produto: " ++ produtoTeclado.nome)) :=
  pedidoCreate_estoque_insuficiente lojaTeclado reqDezTeclados [] []
    { produtoID := 3, quantidade := 10 } produtoTeclado (by decide) rfl
    (by intro it hit; exact absurd hit (List.not_mem_nil it)) rfl (by decide)

/-- C4 counterexample: an order line for one unit of an inactive product
whose stock (0) is below the requested quantity (1) fails with the
INSUFFICIENT-STOCK error, not the inactive-product error — the source
checks stock before the active flag, so the claim's "whatever the
product's stock level" is false. -/
theorem pedidoCreate_inativo_sem_estoque :
    pedidoCreate lojaGadget reqUmGadget
      = (lojaGadget, Outcome.failMsg "estoque insuficiente para produto: Gadget")
    ∧ (pedidoCreate lojaGadget reqUmGadget).2
        ≠ Outcome.failMsg "produto inativo: Gadget" := by
  decide

/-- C4 amended: when the request shape validates, every earlier line
passes validation, and a line's product resolves, covers the requested
quantity, and is not marked active, `Create` fails with the
inactive-product error naming the product and returns the store
untouched.  (The stock check precedes the active check, so the inactive
failure is only reached when stock suffices.) -/
theorem pedidoCreate_produto_inativo (st : Store) (req : CreatePedidoRequest)
    (pre rest : List CreateItemPedidoRequest) (bad : CreateItemPedidoRequest)
    (produto : Produto)
    (hv : validCreatePedido req = true)
    (hsplit : req.itens = pre ++ bad :: rest)
    (hpre : ∀ it ∈ pre, linePasses st it)
    (hfind : produtoFindByID st bad.produtoID = some produto)
    (hstock : ¬(produto.estoque < bad.quantidade))
    (hativo : produto.ativo = false) :
    pedidoCreate st req
      = (st, Outcome.failMsg ("produto inativo: " ++ produto.nome)) := by
  have hb : buildItens st req.itens
      = Except.error ("produto inativo: " ++ produto.nome) := by
    rw [hsplit]
    exact buildItens_prefix_error st pre (bad :: rest) _ hpre
      (buildItens_head_inativo st bad rest produto hfind hstock hativo)
  exact pedidoCreate_error_of_buildItens st req _ hv hb

/-- C4 amended witness: one unit of the inactive product with stock 9
fails with the inactive-product error and the store is unchanged. -/
theorem pedidoCreate_produto_inativo_fact :
    pedidoCreate lojaGadget reqUmGadgetEstocado
      = (lojaGadget, Outcome.failMsg ("produto inativo: " ++ produtoGadgetEstocado.nome)) :=
  pedidoCreate_produto_inativo lojaGadget reqUmGadgetEstocado [] []
    { produtoID := 5, quantidade := 1 } produtoGadgetEstocado (by decide) rfl
    (by intro it hit; exact absurd hit (List.not_mem_nil it)) rfl (by decide) rfl

/-- C1 at its failing input: a valid-shaped order request naming a
customer id that resolves to no customer does NOT fail with the
customer-not-found error — the repository reports a missing customer as
`(nil, nil)`, the service only tests the error, so the order IS persisted
(one new order row) and the service then dereferences the nil customer
pointer (a runtime panic) instead of returning the error. -/
theorem pedidoCreate_cliente_fantasma :
    (pedidoCreate lojaSemCliente reqClienteFantasma).2 = Outcome.nilDeref
    ∧ (pedidoCreate lojaSemCliente reqClienteFantasma).2
        ≠ Outcome.failMsg "cliente não encontrado"
    ∧ ((pedidoCreate lojaSemCliente reqClienteFantasma).1).pedidos.length = 1
    ∧ clienteFindByID lojaSemCliente reqClienteFantasma.clienteID = (none, none) := by
  decide

/-- C6 at its failing inputs: two create-order requests naming DISTINCT
missing product ids (the surrogate code points 55296 and 56320) produce
byte-for-byte IDENTICAL product-not-found errors, because
`string(rune(id))` renders every invalid code point as U+FFFD — so the
failing numeric product id is not recoverable from the error value. -/
theorem pedidoCreate_rune_colisao :
    pedidoCreate lojaSoCliente reqRuneA
      = (lojaSoCliente, Outcome.failMsg ("produto " ++ goRuneString 55296 ++ " não encontrado"))
    ∧ pedidoCreate lojaSoCliente reqRuneB
      = (lojaSoCliente, Outcome.failMsg ("produto " ++ goRuneString 56320 ++ " não encontrado"))
    ∧ (pedidoCreate lojaSoCliente reqRuneA).2 = (pedidoCreate lojaSoCliente reqRuneB).2
    ∧ (55296 : Nat) ≠ 56320 := by
  decide

/-- C5: a status update with one of the five vocabulary values on a
resolving order id succeeds whatever the order's current status (the new
status simply replaces the old, any-to-any); a status outside the
vocabulary is rejected with the validation error; a vocabulary status on
an id that does not resolve fails with the order-not-found error. -/
theorem pedidoUpdateStatus_spec (st : Store) (id : Nat) (req : UpdatePedidoRequest) :
    (validStatusValue req.status = true →
      ∀ pedido, pedidoFindByID st id = some pedido →
        pedidoUpdateStatus st id req
          = (pedidoRepoUpdate st { pedido with status := req.status },
             Outcome.ok (pedidoToResponse { pedido with status := req.status })))
    ∧ (validStatusValue req.status = false →
        pedidoUpdateStatus st id req = (st, Outcome.invalid))
    ∧ (validStatusValue req.status = true → pedidoFindByID st id = none →
        pedidoUpdateStatus st id req = (st, Outcome.failMsg "pedido not found")) := by
  have hne : validStatusValue req.status = true → (req.status != "") = true := by
    intro hval
    by_cases h0 : req.status = ""
    · rw [h0] at hval
      exact absurd hval (by decide)
    · simpa using h0
  refine ⟨?_, ?_, ?_⟩
  · intro hval pedido hfindp
    have hvu : validUpdatePedido req = true := by
      simp [validUpdatePedido, hval, hne hval]
    simp [pedidoUpdateStatus, hvu, hfindp]
  · intro hval
    have hvu : validUpdatePedido req = false := by
      simp [validUpdatePedido, hval]
    simp [pedidoUpdateStatus, hvu]
  · intro hval hnone
    have hvu : validUpdatePedido req = true := by
      simp [validUpdatePedido, hval, hne hval]
    simp [pedidoUpdateStatus, hvu, hnone]

/-- C5 witness: updating the delivered order to "pendente" succeeds — the
delivered-to-pending transition is accepted. -/
theorem pedidoUpdateStatus_spec_fact :
    pedidoUpdateStatus lojaPedidoEntregue 1 { status := "pendente" }
      = (pedidoRepoUpdate lojaPedidoEntregue { pedidoEntregue with status := "pendente" },
         Outcome.ok (pedidoToResponse { pedidoEntregue with status := "pendente" })) :=
  (pedidoUpdateStatus_spec lojaPedidoEntregue 1 { status := "pendente" }).1
    (by decide) pedidoEntregue (by decide)

/-- C10: `UpdateStatus` runs the request validator before the order
lookup, so a request whose status is outside the vocabulary comes back
as the validation error — not order-not-found — even when the order id
resolves to nothing, and the store is returned untouched. -/
theorem pedidoUpdateStatus_valida_antes (st : Store) (id : Nat) (req : UpdatePedidoRequest)
    (hstatus : validStatusValue req.status = false)
    (hmiss : pedidoFindByID st id = none) :
    pedidoUpdateStatus st id req = (st, Outcome.invalid) := by
  have hvu : validUpdatePedido req = false := by
    simp [validUpdatePedido, hstatus]
  simp [pedidoUpdateStatus, hvu]

/-- C10 witness: an out-of-vocabulary status on an id that resolves to
nothing yields the validation error, not order-not-found. -/
theorem pedidoUpdateStatus_valida_antes_fact :
    pedidoUpdateStatus lojaVazia 1 { status := "despachado" } = (lojaVazia, Outcome.invalid) :=
  pedidoUpdateStatus_valida_antes lojaVazia 1 { status := "despachado" }
    (by decide) (by decide)

/-- C8: a product update never touches the orders table — every persisted
order, hence every order line's snapshotted unit price, is unchanged —
and the `BeforeSave` recomputation on any later persist keeps the
snapshotted unit price and yields quantity times that original price. -/
theorem produtoUpdate_nao_altera_pedidos :
    (∀ (st : Store) (id : Nat) (req : UpdateProdutoRequest),
        ((produtoUpdate st id req).1).pedidos = st.pedidos)
    ∧ ∀ pp : PedidoProduto,
        (beforeSavePedidoProduto pp).precoUnitario = pp.precoUnitario
        ∧ (beforeSavePedidoProduto pp).subtotal
            = (pp.quantidade : ℚ) * pp.precoUnitario := by
  constructor
  · intro st id req
    simp only [produtoUpdate, produtoRepoUpdate]
    split
    · rfl
    · split
      · rfl
      · split
        · rfl
        · rfl
  · intro pp
    exact ⟨rfl, rfl⟩

/-- C9: a successful product creation stores exactly one new product whose
active flag is the request's flag when the tri-state pointer is present
and true when it is absent. -/
theorem produtoCreate_ativo_padrao (st : Store) (req : CreateProdutoRequest)
    (produto : Produto)
    (h : (produtoCreate st req).2 = Outcome.ok produto) :
    ((produtoCreate st req).1).produtos = st.produtos ++ [produto]
    ∧ produto.ativo = req.ativo.getD true := by
  by_cases hv : validCreateProduto req = true
  · cases hsku : produtoFindBySKU st req.sku with
    | some p =>
      simp only [produtoCreate, hv, Bool.not_true, Bool.false_eq_true, if_false, hsku] at h
      exact absurd h (by simp)
    | none =>
      simp only [produtoCreate, hv, Bool.not_true, Bool.false_eq_true, if_false, hsku,
        produtoRepoCreate, Outcome.ok.injEq] at h
      constructor
      · simp only [produtoCreate, hv, Bool.not_true, Bool.false_eq_true, if_false, hsku,
          produtoRepoCreate]
        rw [← h]
      · rw [← h]
        cases hao : req.ativo with
        | none => simp [hao]
        | some b => simp [hao]
  · simp only [Bool.not_eq_true] at hv
    simp only [produtoCreate, hv, Bool.not_false, if_true] at h
    exact absurd h (by simp)

/-- C9 witness: creating a product whose request carries an explicit
false stores an inactive product. -/
theorem produtoCreate_ativo_padrao_fact :
    ((produtoCreate lojaVazia reqMouseFalso).1).produtos
        = lojaVazia.produtos ++ [produtoMouseInativo]
    ∧ produtoMouseInativo.ativo = reqMouseFalso.ativo.getD true :=
  produtoCreate_ativo_padrao lojaVazia reqMouseFalso produtoMouseInativo (by decide)
